import Mathlib

/-!
Verification of the TikTok downloader bot's queue/worker core.

Shallow embedding of the three Python modules:
* `app.py` — admission gate (`handle_message`), worker loop (`download_worker`),
  lifecycle (`lifespan`);
* `downloader.py` — `SsstikDownloader.download_video` and its helpers;
* `database.py` — the in-memory fallback of `Database`.

Timestamps are modelled as integers counting microseconds (the resolution
of `datetime.datetime`), so `(now - t0).total_seconds()` is the exact
rational `µs / 10^6`; comparisons and truncations on it are carried out on
the microsecond numerator.  External collaborators (Telegram, httpx, the
statistics backend) are modelled by explicit environments recording
whether each call succeeds or raises.
-/

/-! ## Python string primitives

`message_text.strip()`, `.lower()` and `'tiktok.com' in s` are modelled
directly over character lists (ASCII fragment of `str.lower`, which is
all the domain marker check exercises). -/

/-- Does `hay` start with `needle`? -/
def matchesAt : List Char → List Char → Bool
  | [], _ => true
  | _ :: _, [] => false
  | a :: as, b :: bs => a == b && matchesAt as bs

/-- Does `needle` occur as a contiguous substring of `hay`? -/
def hasSub (needle : List Char) : List Char → Bool
  | [] => needle.isEmpty
  | c :: rest => matchesAt needle (c :: rest) || hasSub needle rest

/-- Python `needle in hay` on strings. -/
def strContains (hay needle : String) : Bool :=
  hasSub needle.toList hay.toList

/-- ASCII case fold of one character (the fragment of `str.lower` used here). -/
def pyLowerChar (c : Char) : Char :=
  if 'A' ≤ c ∧ c ≤ 'Z' then Char.ofNat (c.toNat + 32) else c

/-- Python `s.lower()` (ASCII fragment). -/
def pyLower (s : String) : String := String.mk (s.toList.map pyLowerChar)

/-- Python `s.strip()`: drop leading and trailing whitespace. -/
def pyStrip (s : String) : String :=
  String.mk (((s.toList.dropWhile Char.isWhitespace).reverse.dropWhile
    Char.isWhitespace).reverse)

/-! ## Exact time arithmetic on microsecond counts -/

/-- Microseconds per second, the denominator of every duration. -/
def USEC : ℕ := 1000000

/-- Python `int(x)` where `x` is the duration `us / 10^6` seconds:
truncation toward zero. -/
def truncSecondsOfMicros (us : ℤ) : ℤ :=
  if 0 ≤ us then (us.toNat / USEC : ℕ) else -((((-us).toNat) / USEC : ℕ))

/-- `⌈us / 10^6⌉` in seconds: the spec's `ceil` of a duration. -/
def ceilSecondsOfMicros (us : ℤ) : ℤ :=
  if 0 ≤ us then ((us.toNat + (USEC - 1)) / USEC : ℕ)
  else -((((-us).toNat) / USEC : ℕ))

/-! ## Admission gate (`app.py`, `handle_message`)

State: the module-level `user_cooldowns : dict[int, datetime]` (an
association map keyed by user id, last write wins) and the FIFO
`download_queue`.  `COOLDOWN_SECONDS = 15`. -/

def COOLDOWN_SECONDS : ℕ := 15

/-- One queued download task, as built by `handle_message` (the
`update`/`processing_msg` handles are behavioural and modelled in the
worker's environment instead). -/
structure QTask where
  user_id : ℤ
  url : String
  queue_position : ℕ
deriving DecidableEq, Repr

/-- Module-level mutable state read and written by `handle_message`:
timestamps in `user_cooldowns` are in microseconds. -/
structure BotState where
  user_cooldowns : List (ℤ × ℤ)
  download_queue : List QTask
deriving DecidableEq, Repr

/-- `uid in user_cooldowns` / `user_cooldowns[uid]`. -/
def cdLookup (m : List (ℤ × ℤ)) (uid : ℤ) : Option ℤ :=
  match m with
  | [] => none
  | (k, v) :: rest => if k == uid then some v else cdLookup rest uid

/-- `user_cooldowns[uid] = t` (replace or insert). -/
def cdInsert (m : List (ℤ × ℤ)) (uid : ℤ) (t : ℤ) : List (ℤ × ℤ) :=
  match m with
  | [] => [(uid, t)]
  | (k, v) :: rest => if k == uid then (uid, t) :: rest else (k, v) :: cdInsert rest uid t

/-- The reply `handle_message` sends back to the submitter. -/
inductive Reply
  | invalidLink
  | cooldownWait (secs : ℤ)
  | queuedAt (pos : ℕ)
  | processing
deriving DecidableEq, Repr

/-- One access to the cooldown registry, for auditing read/write behaviour. -/
inductive RegAccess
  | read (uid : ℤ)
  | write (uid : ℤ)
deriving DecidableEq, Repr

/-- Result of one `handle_message` call: updated module state, the reply
sent, and the trace of cooldown-registry accesses it performed. -/
structure HMResult where
  state : BotState
  reply : Reply
  accesses : List RegAccess
deriving DecidableEq, Repr

/-- The accepted branch of `handle_message`: update the cooldown, read the
queue size, reply with `queue_size + 1` when the queue is non-empty, and
enqueue the task carrying `queue_position = queue_size + 1`. -/
def acceptSubmission (st : BotState) (uid : ℤ) (message_text : String) (now : ℤ) : HMResult :=
  let cooldowns := cdInsert st.user_cooldowns uid now
  let queue_size := st.download_queue.length
  let reply := if queue_size > 0 then Reply.queuedAt (queue_size + 1) else .processing
  let task : QTask := { user_id := uid, url := message_text, queue_position := queue_size + 1 }
  { state := { user_cooldowns := cooldowns, download_queue := st.download_queue ++ [task] },
    reply := reply, accesses := [.read uid, .write uid] }

/-- `handle_message(update, context)` from `app.py`: URL shape check,
cooldown check (reject with `int(remaining)` seconds while
`remaining > 0`), otherwise accept.  `remaining = COOLDOWN_SECONDS -
elapsed` is the rational `(15·10^6 - elapsedUs) / 10^6`, handled on its
microsecond numerator. -/
def handle_message (st : BotState) (uid : ℤ) (text : String) (now : ℤ) : HMResult :=
  let message_text := pyStrip text
  if !(strContains (pyLower message_text) "tiktok.com") then
    { state := st, reply := .invalidLink, accesses := [] }
  else
    match cdLookup st.user_cooldowns uid with
    | some last_download =>
      let elapsedUs := now - last_download
      let remainingUs := (COOLDOWN_SECONDS : ℤ) * USEC - elapsedUs
      if remainingUs > 0 then
        { state := st, reply := .cooldownWait (truncSecondsOfMicros remainingUs),
          accesses := [.read uid] }
      else
        acceptSubmission st uid message_text now
    | none => acceptSubmission st uid message_text now

/-! ## Scraping client (`downloader.py`, `SsstikDownloader`)

`download_video` drives three HTTP round trips (page, API, video).  The
environment records what the network returned: response status codes, the
`tt` token the regex/soup search finds in the page (the library searches
themselves are external parsing of external data), the anchor elements of
the API response, and the `datetime.utcnow()` strings. -/

/-- An `<a href=...>` element of the API response (`href`, rendered text). -/
structure PageLink where
  href : String
  text : String
deriving DecidableEq, Repr

/-- External inputs of one `download_video` call. -/
structure DownloadEnv where
  pageStatus : ℕ
  pageToken : Option String
  apiStatus : ℕ
  pageLinks : List PageLink
  videoStatus : ℕ
  isoNow : String
  nowStr : String
  fallbackTs : String
deriving DecidableEq, Repr

def BASE_URL : String := "https://ssstik.io"
def DOWNLOAD_DIR : String := "/tmp/downloads"

/-- `_get_token`: raise on a non-200 page or a missing `tt` token. -/
def getToken (env : DownloadEnv) : Except String String :=
  if env.pageStatus ≠ 200 then
    .error ("Failed to load page: " ++ toString env.pageStatus)
  else
    match env.pageToken with
    | some t => .ok t
    | none => .error "Could not find 'tt' token"

/-- Python `s.startswith(pre)`. -/
def strStartsWith (s pre : String) : Bool := matchesAt pre.toList s.toList

/-- The link-selection loop of `_fetch_download_links`: first candidate
whose text mentions "without"/"no watermark" wins (break); otherwise the
first candidate found. -/
def selectLoop (acc : Option String) : List PageLink → Option String
  | [] => acc
  | l :: rest =>
    let href := l.href
    let text := pyLower l.text
    if strContains href "tikcdn.io" || strContains href ".mp4" then
      if strContains text "without" || strContains text "no watermark" then some href
      else if acc.isNone then selectLoop (some href) rest
      else selectLoop acc rest
    else selectLoop acc rest

/-- Make the selected URL absolute. -/
def absolutize (u : String) : String :=
  if strStartsWith u "//" then "https:" ++ u
  else if strStartsWith u "/" then BASE_URL ++ u
  else u

/-- `_fetch_download_links`: raise on a non-200 API response or when no
download link is found; otherwise the absolutized link. -/
def fetchDownloadLinks (env : DownloadEnv) : Except String String :=
  if env.apiStatus ≠ 200 then
    .error ("API request failed: " ++ toString env.apiStatus)
  else
    match selectLoop none env.pageLinks with
    | none => .error "No download link found"
    | some u => .ok (absolutize u)

/-- Leftmost occurrence of `marker` followed by at least one digit;
returns the maximal digit run after it (regex `marker(\d+)`). -/
def searchMarkerDigits (marker : List Char) : List Char → Option (List Char)
  | [] => none
  | c :: rest =>
    if matchesAt marker (c :: rest) then
      let run := ((c :: rest).drop marker.length).takeWhile Char.isDigit
      if run.isEmpty then searchMarkerDigits marker rest else some run
    else searchMarkerDigits marker rest

/-- Leftmost position with 19 consecutive digits (regex `(\d{19})`). -/
def searchNineteenDigits : List Char → Option (List Char)
  | [] => none
  | c :: rest =>
    let run := (c :: rest).takeWhile Char.isDigit
    if run.length ≥ 19 then some (run.take 19) else searchNineteenDigits rest

/-- `_extract_video_id`: the three regex patterns in order, then the
timestamp fallback. -/
def extractVideoId (url : String) (fallbackTs : String) : String :=
  match searchMarkerDigits "/video/".toList url.toList with
  | some run => String.mk run
  | none =>
    match searchMarkerDigits "/v/".toList url.toList with
    | some run => String.mk run
    | none =>
      match searchNineteenDigits url.toList with
      | some run => String.mk run
      | none => fallbackTs

/-- The `result` dict of `download_video`. -/
structure DVResult where
  success : Bool
  url : String
  download_path : Option String
  error : Option String
  timestamp : String
deriving DecidableEq, Repr

/-- `download_video(tiktok_url)`: any exception raised inside the `try`
is caught and stored in `result['error']`; the happy path stores the
saved file's path and flips `success`. -/
def download_video (tiktok_url : String) (env : DownloadEnv) : DVResult :=
  let base : DVResult :=
    { success := false, url := tiktok_url, download_path := none,
      error := none, timestamp := env.isoNow }
  match getToken env with
  | .error e => { base with error := some e }
  | .ok _token =>
    match fetchDownloadLinks env with
    | .error e => { base with error := some e }
    | .ok _download_url =>
      if env.videoStatus ≠ 200 then
        { base with error := some ("Download failed: " ++ toString env.videoStatus) }
      else
        let video_id := extractVideoId tiktok_url env.fallbackTs
        let filename := "ssstik_" ++ video_id ++ "_" ++ env.nowStr ++ ".mp4"
        { base with success := true, download_path := some (DOWNLOAD_DIR ++ "/" ++ filename) }

/-! ## Worker loop (`app.py`, `download_worker`)

The worker drains `download_queue` forever: one `await get()`, one fetch,
one notify/cleanup, one `task_done()` per iteration.  We record its
behaviour as a list of events.  The per-job environment gives the
`DownloadEnv` the fetch sees and whether the delivery call
(`open` + `reply_video`) or the statistics call (`db.track_download`)
raises; the `processing_msg` edits/deletes are wrapped in `try/except:
pass` in the source, so whether they succeed never affects control flow
and they are recorded simply as attempted calls. -/

/-- Per-job behaviour of the external collaborators. -/
structure JobEnv where
  denv : DownloadEnv
  deliveryRaises : Bool
  statsRaises : Bool
deriving DecidableEq, Repr

/-- Observable actions of one worker iteration, tagged with the job's
position `i` in dequeue order. -/
inductive Ev
  | dequeue (i : ℕ)
  | editStatus (i : ℕ) (msg : String)
  | fetchStart (i : ℕ) (url : String)
  | fetchEnd (i : ℕ)
  | record (i : ℕ) (uid : ℤ) (url : String) (success : Bool)
  | deliver (i : ℕ)
  | removeFile (i : ℕ) (path : String)
  | deleteMsg (i : ℕ)
  | outerCaught (i : ℕ)
  | resolve (i : ℕ)
deriving DecidableEq, Repr

/-- The failure text `download_worker` writes into the status message. -/
def failMessage (err : Option String) : String :=
  "❌ Failed to download video.\n\nError: " ++ err.getD "Unknown error" ++
    "\n\nPlease try again or check if the link is correct."

/-- The inner `try` body (app.py lines 77–116): status edit, fetch, then
the success branch (record success, deliver, remove file, delete message)
or the failure branch (record failure, edit failure text).  Returns the
events performed and whether an exception escaped the body. -/
def tryBody (i : ℕ) (uid : ℤ) (url : String) (env : JobEnv) : List Ev × Bool :=
  let result := download_video url env.denv
  let pre := [Ev.editStatus i "⏳ Downloading your video...",
              Ev.fetchStart i url, Ev.fetchEnd i]
  if result.success then
    if env.statsRaises then (pre ++ [Ev.record i uid url true], true)
    else if env.deliveryRaises then (pre ++ [Ev.record i uid url true], true)
    else
      (pre ++ [Ev.record i uid url true, Ev.deliver i,
               Ev.removeFile i (result.download_path.getD ""), Ev.deleteMsg i], false)
  else
    if env.statsRaises then (pre ++ [Ev.record i uid url false], true)
    else
      (pre ++ [Ev.record i uid url false,
               Ev.editStatus i (failMessage result.error)], false)

/-- The `except Exception` handler (app.py lines 118–126): record a
failed attempt and post a generic error text; the statistics call itself
may raise again. -/
def exceptHandler (i : ℕ) (uid : ℤ) (url : String) (env : JobEnv) : List Ev × Bool :=
  if env.statsRaises then ([Ev.record i uid url false], true)
  else ([Ev.record i uid url false,
         Ev.editStatus i "❌ An error occurred. Please try again later."], false)

/-- One full iteration over a dequeued task: inner `try`, its handler if
the body raised, then the `finally` (`task_done()`, modelled as
`resolve`).  Returns the events and whether an exception escaped past the
`finally` (to be caught by the loop's outer handler). -/
def processJob (i : ℕ) (t : QTask) (env : JobEnv) : List Ev × Bool :=
  let tb := tryBody i t.user_id t.url env
  if tb.2 then
    let h := exceptHandler i t.user_id t.url env
    (Ev.dequeue i :: tb.1 ++ h.1 ++ [Ev.resolve i], h.2)
  else
    (Ev.dequeue i :: tb.1 ++ [Ev.resolve i], false)

/-- What `await download_queue.get()` yields to the worker next: a queued
task (with its collaborators' behaviour) or `asyncio.CancelledError`. -/
inductive WInput
  | job (t : QTask) (env : JobEnv)
  | cancel
deriving DecidableEq, Repr

/-- Terminal observation of the loop: still waiting on the queue, broken
out of via `except asyncio.CancelledError: break`, or terminated by an
exception escaping the loop body (the `except Exception` arm makes this
unreachable). -/
inductive WExit
  | running
  | stopped
  | crashed (i : ℕ)
deriving DecidableEq, Repr

/-- Tasks still sitting in the queue. -/
def jobsOf : List WInput → List QTask
  | [] => []
  | .job t _ :: r => t :: jobsOf r
  | .cancel :: r => jobsOf r

/-- `download_queue.qsize()`. -/
def currentDepth (q : List QTask) : ℕ := q.length

/-- The `while True` loop of `download_worker`: each iteration processes
one input; an exception escaping an iteration is caught by the outer
`except Exception` arm (logged, loop continues); `CancelledError` breaks
the loop.  Returns the event trace, the exit observation, and the tasks
left in the queue. -/
def runWorkerAux : ℕ → List WInput → List Ev × WExit × List QTask
  | _, [] => ([], .running, [])
  | _, .cancel :: rest => ([], .stopped, jobsOf rest)
  | i, .job t env :: rest =>
    let pj := processJob i t env
    let evs := if pj.2 then pj.1 ++ [Ev.outerCaught i] else pj.1
    let recres := runWorkerAux (i + 1) rest
    (evs ++ recres.1, recres.2.1, recres.2.2)

def runWorker (inputs : List WInput) : List Ev × WExit × List QTask :=
  runWorkerAux 0 inputs

/-- Trace of a run over queued jobs only (no cancellation). -/
def runWorkerJobs (js : List (QTask × JobEnv)) : List Ev :=
  (runWorkerAux 0 (js.map fun p => WInput.job p.1 p.2)).1

/-! ### Trace observations -/

/-- Job indices of the `fetch` invocations, in order. -/
def fetchIdxs (t : List Ev) : List ℕ :=
  t.filterMap fun e => match e with | .fetchStart i _ => some i | _ => none

/-- Job indices of the dequeues, in order. -/
def dequeueIdxs (t : List Ev) : List ℕ :=
  t.filterMap fun e => match e with | .dequeue i => some i | _ => none

/-- Job indices of the resolutions (`task_done`), in order. -/
def resolveIdxs (t : List Ev) : List ℕ :=
  t.filterMap fun e => match e with | .resolve i => some i | _ => none

/-- The `db.track_download` calls, in order. -/
def recordsOf (t : List Ev) : List (ℤ × String × Bool) :=
  t.filterMap fun e => match e with | .record _ u l s => some (u, l, s) | _ => none

/-- The `os.remove` calls, in order. -/
def removedPaths (t : List Ev) : List String :=
  t.filterMap fun e => match e with | .removeFile _ p => some p | _ => none

/-- The `processing_msg.edit_text` calls, in order. -/
def editsOf (t : List Ev) : List String :=
  t.filterMap fun e => match e with | .editStatus _ m => some m | _ => none

/-- Checks that dequeues and resolutions strictly alternate starting
idle: every dequeued job is fully resolved before the next dequeue, so at
most one job is ever in flight. -/
def seqOk : Bool → List Ev → Bool
  | _, [] => true
  | b, .dequeue _ :: r => !b && seqOk true r
  | b, .resolve _ :: r => b && seqOk false r
  | b, .editStatus _ _ :: r => seqOk b r
  | b, .fetchStart _ _ :: r => seqOk b r
  | b, .fetchEnd _ :: r => seqOk b r
  | b, .record _ _ _ _ :: r => seqOk b r
  | b, .deliver _ :: r => seqOk b r
  | b, .removeFile _ _ :: r => seqOk b r
  | b, .deleteMsg _ :: r => seqOk b r
  | b, .outerCaught _ :: r => seqOk b r

/-- Checks that fetch invocations never overlap: `fetchStart` and
`fetchEnd` strictly alternate starting outside a fetch. -/
def fetchSeqOk : Bool → List Ev → Bool
  | _, [] => true
  | b, .fetchStart _ _ :: r => !b && fetchSeqOk true r
  | b, .fetchEnd _ :: r => b && fetchSeqOk false r
  | b, .dequeue _ :: r => fetchSeqOk b r
  | b, .resolve _ :: r => fetchSeqOk b r
  | b, .editStatus _ _ :: r => fetchSeqOk b r
  | b, .record _ _ _ _ :: r => fetchSeqOk b r
  | b, .deliver _ :: r => fetchSeqOk b r
  | b, .removeFile _ _ :: r => fetchSeqOk b r
  | b, .deleteMsg _ :: r => fetchSeqOk b r
  | b, .outerCaught _ :: r => fetchSeqOk b r

/-! ## Statistics store (`database.py`, in-memory fallback)

With Supabase not connected (`self.connected = False`) every tracking
call lands in `_memory_users` (a set) and `_memory_downloads` (a list of
dicts); `get_stats` / `get_user_stats` aggregate those lists.  A
download's `created_at` date is carried as an abstract day number; each
aggregation call takes `today` (the date of `datetime.now`). -/

/-- One entry of `_memory_downloads`. -/
structure MemDownload where
  user_id : ℤ
  url : String
  success : Bool
  created_day : ℤ
deriving DecidableEq, Repr

/-- The in-memory store: `_memory_users` kept as the insertion-ordered
list of the set's elements, `_memory_downloads` in append order. -/
structure MemDB where
  users : List ℤ
  downloads : List MemDownload
deriving DecidableEq, Repr

/-- `self._memory_users.add(user_id)` (set insertion). -/
def MemDB.track_user (db : MemDB) (uid : ℤ) : MemDB :=
  if uid ∈ db.users then db else { db with users := db.users ++ [uid] }

/-- `self._memory_downloads.append({...})`. -/
def MemDB.track_download (db : MemDB) (uid : ℤ) (url : String) (success : Bool)
    (day : ℤ) : MemDB :=
  { db with downloads := db.downloads ++ [⟨uid, url, success, day⟩] }

/-- Return value of `get_stats` (dashboard aggregate). -/
structure Stats where
  total_users : ℕ
  total_downloads : ℕ
  successful_downloads : ℕ
  failed_downloads : ℕ
  today_downloads : ℕ
deriving DecidableEq, Repr

/-- Return value of `get_user_stats`. -/
structure UserStats where
  total_downloads : ℕ
  successful_downloads : ℕ
  failed_downloads : ℕ
  today_downloads : ℕ
deriving DecidableEq, Repr

/-- `get_stats` (in-memory branch). -/
def MemDB.get_stats (db : MemDB) (today : ℤ) : Stats :=
  let successful := (db.downloads.filter fun d => d.success).length
  { total_users := db.users.length,
    total_downloads := db.downloads.length,
    successful_downloads := successful,
    failed_downloads := db.downloads.length - successful,
    today_downloads := (db.downloads.filter fun d => d.created_day == today).length }

/-- `get_user_stats` (in-memory branch). -/
def MemDB.get_user_stats (db : MemDB) (uid : ℤ) (today : ℤ) : UserStats :=
  let user_downloads := db.downloads.filter fun d => d.user_id == uid
  let successful := (user_downloads.filter fun d => d.success).length
  { total_downloads := user_downloads.length,
    successful_downloads := successful,
    failed_downloads := user_downloads.length - successful,
    today_downloads := (user_downloads.filter fun d => d.created_day == today).length }

/-- A tracking call against the store. -/
inductive DBCall
  | trackUser (uid : ℤ) (username : String)
  | trackDownload (uid : ℤ) (url : String) (success : Bool) (day : ℤ)
deriving DecidableEq, Repr

/-- Run a sequence of tracking calls. -/
def applyCalls : MemDB → List DBCall → MemDB
  | db, [] => db
  | db, .trackUser uid _ :: r => applyCalls (db.track_user uid) r
  | db, .trackDownload uid url s d :: r => applyCalls (db.track_download uid url s d) r

/-- The store at process start. -/
def emptyDB : MemDB := { users := [], downloads := [] }

/-- The user id a call tracks, if it is a `track_user` call. -/
def callUser : DBCall → Option ℤ
  | .trackUser u _ => some u
  | .trackDownload _ _ _ _ => none

/-- The download a call appends, if it is a `track_download` call. -/
def callDownload : DBCall → Option MemDownload
  | .trackUser _ _ => none
  | .trackDownload u l s d => some ⟨u, l, s, d⟩

/-! ## Theorems: admission gate (C2, C3, C8) -/

/-- C2 (amended): with a prior cooldown timestamp `t0` for the submitter
and a URL-shaped text, a submission with `now - t0 < COOLDOWN_SECONDS` is
rejected with a wait time of `int(COOLDOWN_SECONDS - elapsed)` seconds —
truncation (floor), not `ceil`, so the reported value is ≥ 0 but may be
0 — and a submission with `now - t0 ≥ COOLDOWN_SECONDS` is accepted. -/
theorem c2_cooldown_floor (st : BotState) (uid : ℤ) (text : String) (now t0 : ℤ)
    (hurl : strContains (pyLower (pyStrip text)) "tiktok.com" = true)
    (hl : cdLookup st.user_cooldowns uid = some t0) :
    (now - t0 < (COOLDOWN_SECONDS : ℤ) * USEC →
      handle_message st uid text now =
        { state := st,
          reply := .cooldownWait
            (truncSecondsOfMicros ((COOLDOWN_SECONDS : ℤ) * USEC - (now - t0))),
          accesses := [.read uid] } ∧
      0 ≤ truncSecondsOfMicros ((COOLDOWN_SECONDS : ℤ) * USEC - (now - t0))) ∧
    ((COOLDOWN_SECONDS : ℤ) * USEC ≤ now - t0 →
      handle_message st uid text now = acceptSubmission st uid (pyStrip text) now) := by
  constructor
  · intro hlt
    have hpos : (0:ℤ) < (COOLDOWN_SECONDS : ℤ) * USEC - (now - t0) := by omega
    refine ⟨?_, ?_⟩
    · simp only [handle_message, hurl, hl, Bool.not_true, Bool.false_eq_true, if_false]
      rw [if_pos hpos]
    · unfold truncSecondsOfMicros
      rw [if_pos (le_of_lt hpos)]
      positivity
  · intro hge
    simp only [handle_message, hurl, hl, Bool.not_true, Bool.false_eq_true, if_false]
    rw [if_neg (by omega)]

/-- C2 counterexample: prior accepted submission at `t0 = 0`, second
submission at `t1 = 14.5 s`.  The code replies "wait 0 seconds", while
the claim demands `ceil(15 − 14.5) = 1` and never ≤ 0. -/
theorem c2_cex :
    (handle_message { user_cooldowns := [(42, 0)], download_queue := [] }
        42 "https://www.tiktok.com/@a/video/111" 14500000).reply = .cooldownWait 0 ∧
    ceilSecondsOfMicros ((COOLDOWN_SECONDS : ℤ) * USEC - 14500000) = 1 ∧
    ¬ ((1 : ℤ) ≤ 0) := by decide

/-- C2 witness: the spec's own scenario — second submission 1 s after
the first is rejected with 14 s remaining. -/
theorem c2_witness :
    handle_message { user_cooldowns := [(42, 0)], download_queue := [] }
        42 "https://www.tiktok.com/@a/video/111" (1 * USEC) =
      { state := { user_cooldowns := [(42, 0)], download_queue := [] },
        reply := .cooldownWait 14, accesses := [.read 42] } := by
  have h := (c2_cooldown_floor { user_cooldowns := [(42, 0)], download_queue := [] }
    42 "https://www.tiktok.com/@a/video/111" (1 * USEC) 0 (by decide) (by decide)).1
    (by decide)
  rw [h.1]
  decide

/-- C3 counterexample: the first accepted submission into an empty queue
is enqueued with `queue_position = 1` (and a bare "Processing" reply),
not the claimed `positionInQueue = 0`. -/
theorem c3_cex :
    (handle_message { user_cooldowns := [], download_queue := [] }
        42 "https://www.tiktok.com/@a/video/111" 0).state.download_queue.map
      QTask.queue_position = [1] ∧
    (handle_message { user_cooldowns := [], download_queue := [] }
        42 "https://www.tiktok.com/@a/video/111" 0).reply = .processing ∧
    (1 : ℕ) ≠ 0 := by decide

/-- C3 (amended): every accepted submission is enqueued with
`queue_position` equal to the queue depth before insertion *plus one*
(1 means "will run immediately next"), and the position is echoed to the
submitter only when the prior depth was non-zero (otherwise a generic
"processing" reply). -/
theorem c3_position_offset (st : BotState) (uid : ℤ) (text : String) (now : ℤ)
    (hurl : strContains (pyLower (pyStrip text)) "tiktok.com" = true)
    (hacc : cdLookup st.user_cooldowns uid = none ∨
      ∃ t0, cdLookup st.user_cooldowns uid = some t0 ∧
        (COOLDOWN_SECONDS : ℤ) * USEC ≤ now - t0) :
    (handle_message st uid text now).state.download_queue =
      st.download_queue ++
        [{ user_id := uid, url := pyStrip text,
           queue_position := st.download_queue.length + 1 }] ∧
    (handle_message st uid text now).reply =
      (if st.download_queue.length > 0 then Reply.queuedAt (st.download_queue.length + 1)
       else .processing) := by
  have hacc' : handle_message st uid text now = acceptSubmission st uid (pyStrip text) now := by
    rcases hacc with h | ⟨t0, hl, hge⟩
    · simp only [handle_message, hurl, h, Bool.not_true, Bool.false_eq_true, if_false]
    · simp only [handle_message, hurl, hl, Bool.not_true, Bool.false_eq_true, if_false]
      rw [if_neg (by omega)]
  rw [hacc']
  exact ⟨rfl, rfl⟩

/-- C3 witness: fresh submitter, empty queue — stored position is 1. -/
theorem c3_witness :
    (handle_message { user_cooldowns := [], download_queue := [] }
        7 "https://www.tiktok.com/@a/video/222" 0).state.download_queue =
      [{ user_id := 7, url := "https://www.tiktok.com/@a/video/222", queue_position := 1 }] ∧
    (handle_message { user_cooldowns := [], download_queue := [] }
        7 "https://www.tiktok.com/@a/video/222" 0).reply = .processing := by
  have h := c3_position_offset { user_cooldowns := [], download_queue := [] }
    7 "https://www.tiktok.com/@a/video/222" 0 (by decide) (Or.inl (by decide))
  exact ⟨by rw [h.1]; decide, by rw [h.2]; decide⟩

/-- C8 (amended): rejected submissions (invalid shape or active
cooldown) leave the state — registry and queue — untouched and enqueue
nothing; the registry is written only when a job is enqueued; and the
registry is read exactly on those attempts that pass the URL-shape check
(an invalid submission returns before the registry is consulted). -/
theorem c8_rejections (st : BotState) (uid : ℤ) (text : String) (now : ℤ) :
    ((handle_message st uid text now).reply = .invalidLink →
      (handle_message st uid text now).state = st ∧
      (handle_message st uid text now).accesses = []) ∧
    (∀ s, (handle_message st uid text now).reply = .cooldownWait s →
      (handle_message st uid text now).state = st ∧
      (handle_message st uid text now).accesses = [.read uid]) ∧
    (RegAccess.write uid ∈ (handle_message st uid text now).accesses →
      (handle_message st uid text now).state.user_cooldowns =
        cdInsert st.user_cooldowns uid now ∧
      (handle_message st uid text now).state.download_queue.length =
        st.download_queue.length + 1) ∧
    (RegAccess.read uid ∈ (handle_message st uid text now).accesses ↔
      strContains (pyLower (pyStrip text)) "tiktok.com" = true) := by
  by_cases hurl : strContains (pyLower (pyStrip text)) "tiktok.com" = true
  · rcases hcd : cdLookup st.user_cooldowns uid with _ | t0
    · have heq : handle_message st uid text now = acceptSubmission st uid (pyStrip text) now := by
        simp only [handle_message, hurl, hcd, Bool.not_true, Bool.false_eq_true, if_false]
      rw [heq]
      refine ⟨fun h => ?_, fun s h => ?_,
        fun _ => ⟨rfl, by simp [acceptSubmission]⟩, by simp [acceptSubmission, hurl]⟩
      · by_cases hq : st.download_queue.length > 0 <;> simp [acceptSubmission, hq] at h
      · by_cases hq : st.download_queue.length > 0 <;> simp [acceptSubmission, hq] at h
    · by_cases hrem : (COOLDOWN_SECONDS : ℤ) * USEC - (now - t0) > 0
      · have heq : handle_message st uid text now =
            { state := st,
              reply := .cooldownWait
                (truncSecondsOfMicros ((COOLDOWN_SECONDS : ℤ) * USEC - (now - t0))),
              accesses := [.read uid] } := by
          simp only [handle_message, hurl, hcd, Bool.not_true, Bool.false_eq_true, if_false]
          rw [if_pos hrem]
        rw [heq]
        refine ⟨fun h => by simp at h, fun s _ => ⟨rfl, rfl⟩, fun h => by simp at h,
          by simp [hurl]⟩
      · have heq : handle_message st uid text now = acceptSubmission st uid (pyStrip text) now := by
          simp only [handle_message, hurl, hcd, Bool.not_true, Bool.false_eq_true, if_false]
          rw [if_neg hrem]
        rw [heq]
        refine ⟨fun h => ?_, fun s h => ?_,
          fun _ => ⟨rfl, by simp [acceptSubmission]⟩, by simp [acceptSubmission, hurl]⟩
        · by_cases hq : st.download_queue.length > 0 <;> simp [acceptSubmission, hq] at h
        · by_cases hq : st.download_queue.length > 0 <;> simp [acceptSubmission, hq] at h
  · have hfalse : strContains (pyLower (pyStrip text)) "tiktok.com" = false := by
      revert hurl; simp
    have heq : handle_message st uid text now =
        { state := st, reply := .invalidLink, accesses := [] } := by
      simp only [handle_message, hfalse, Bool.not_false, if_true]
    rw [heq]
    refine ⟨fun _ => ⟨rfl, rfl⟩, fun s h => by simp at h, fun h => by simp at h, ?_⟩
    simp [hfalse]

/-- C8 witness: a non-TikTok text leaves the registry and queue as they
were and performs no registry access at all. -/
theorem c8_witness :
    (handle_message { user_cooldowns := [(42, 0)], download_queue := [] } 7 "hello" 0).state =
      { user_cooldowns := [(42, 0)], download_queue := [] } ∧
    (handle_message { user_cooldowns := [(42, 0)], download_queue := [] }
      7 "hello" 0).accesses = [] := by
  exact (c8_rejections { user_cooldowns := [(42, 0)], download_queue := [] } 7 "hello" 0).1
    (by decide)

/-- C8 counterexample: an invalid submission never reads the registry,
refuting "read on every submission attempt". -/
theorem c8_cex :
    (handle_message { user_cooldowns := [(42, 0)], download_queue := [] }
        7 "hello" 0).reply = .invalidLink ∧
    ¬ (RegAccess.read 7 ∈
        (handle_message { user_cooldowns := [(42, 0)], download_queue := [] }
          7 "hello" 0).accesses) := by decide

/-! ## Theorems: statistics store (C10) -/

/-- Downloads recorded by a call sequence are exactly the appended
`track_download` payloads, in order. -/
theorem applyCalls_downloads (calls : List DBCall) (db : MemDB) :
    (applyCalls db calls).downloads = db.downloads ++ calls.filterMap callDownload := by
  induction calls generalizing db with
  | nil => simp [applyCalls]
  | cons c r ih =>
    cases c with
    | trackUser u un =>
      simp only [applyCalls, List.filterMap_cons, callUser, callDownload]
      rw [ih]
      unfold MemDB.track_user
      split <;> simp
    | trackDownload u l s d =>
      simp only [applyCalls, List.filterMap_cons, callDownload]
      rw [ih]
      simp [MemDB.track_download]

/-- `_memory_users` stays duplicate-free and holds exactly the tracked
user ids. -/
theorem applyCalls_users (calls : List DBCall) (db : MemDB) (h : db.users.Nodup) :
    (applyCalls db calls).users.Nodup ∧
      (applyCalls db calls).users.toFinset =
        db.users.toFinset ∪ (calls.filterMap callUser).toFinset := by
  induction calls generalizing db with
  | nil => simpa [applyCalls] using h
  | cons c r ih =>
    cases c with
    | trackUser u un =>
      have hu : (db.track_user u).users.Nodup := by
        unfold MemDB.track_user
        split
        · exact h
        · rename_i hmem
          simp [List.nodup_append, h, hmem]
      have hts : (db.track_user u).users.toFinset = insert u db.users.toFinset := by
        unfold MemDB.track_user
        split
        · rename_i hmem
          simp [Finset.insert_eq_self.mpr (List.mem_toFinset.mpr hmem)]
        · ext x
          simp only [List.toFinset_append, List.toFinset_cons, List.toFinset_nil,
            Finset.mem_union, Finset.mem_insert, List.mem_toFinset, Finset.mem_singleton,
            insert_emptyc_eq]
          tauto
      simp only [applyCalls, List.filterMap_cons, callUser]
      obtain ⟨h1, h2⟩ := ih (db.track_user u) hu
      refine ⟨h1, ?_⟩
      rw [h2, hts]
      ext x
      simp only [Finset.mem_union, Finset.mem_insert, List.mem_toFinset, List.toFinset_cons]
      tauto
    | trackDownload u l s d =>
      simp only [applyCalls, List.filterMap_cons, callDownload, callUser]
      exact ih (db.track_download u l s d) h

/-- C10: under the in-memory fallback, after any sequence of
`track_user`/`track_download` calls, `get_stats` reports the number of
distinct tracked users, the number of download calls, the number of
successful ones, and `failed = total - successful` (so
`successful + failed = total`); `get_user_stats` reports the same
counts restricted to that user's calls. -/
theorem c10_memory_stats (calls : List DBCall) (uid today : ℤ) :
    ((applyCalls emptyDB calls).get_stats today).total_users =
      (calls.filterMap callUser).toFinset.card ∧
    ((applyCalls emptyDB calls).get_stats today).total_downloads =
      (calls.filterMap callDownload).length ∧
    ((applyCalls emptyDB calls).get_stats today).successful_downloads =
      ((calls.filterMap callDownload).filter fun d => d.success).length ∧
    ((applyCalls emptyDB calls).get_stats today).failed_downloads =
      ((applyCalls emptyDB calls).get_stats today).total_downloads -
        ((applyCalls emptyDB calls).get_stats today).successful_downloads ∧
    ((applyCalls emptyDB calls).get_stats today).successful_downloads +
        ((applyCalls emptyDB calls).get_stats today).failed_downloads =
      ((applyCalls emptyDB calls).get_stats today).total_downloads ∧
    ((applyCalls emptyDB calls).get_user_stats uid today).total_downloads =
      ((calls.filterMap callDownload).filter fun d => d.user_id == uid).length ∧
    ((applyCalls emptyDB calls).get_user_stats uid today).successful_downloads =
      (((calls.filterMap callDownload).filter fun d => d.user_id == uid).filter
        fun d => d.success).length ∧
    ((applyCalls emptyDB calls).get_user_stats uid today).failed_downloads =
      ((applyCalls emptyDB calls).get_user_stats uid today).total_downloads -
        ((applyCalls emptyDB calls).get_user_stats uid today).successful_downloads ∧
    ((applyCalls emptyDB calls).get_user_stats uid today).successful_downloads +
        ((applyCalls emptyDB calls).get_user_stats uid today).failed_downloads =
      ((applyCalls emptyDB calls).get_user_stats uid today).total_downloads := by
  have hdl : (applyCalls emptyDB calls).downloads = calls.filterMap callDownload := by
    simpa [emptyDB] using applyCalls_downloads calls emptyDB
  obtain ⟨hnd, hts⟩ := applyCalls_users calls emptyDB (by simp [emptyDB])
  have husers : (applyCalls emptyDB calls).users.length =
      (calls.filterMap callUser).toFinset.card := by
    rw [← List.toFinset_card_of_nodup hnd, hts]
    simp [emptyDB]
  have hle : ((calls.filterMap callDownload).filter fun d => d.success).length ≤
      (calls.filterMap callDownload).length := List.length_filter_le _ _
  have hle2 : ((calls.filterMap callDownload).filter
        fun a => a.success && a.user_id == uid).length ≤
      ((calls.filterMap callDownload).filter fun d => d.user_id == uid).length := by
    rw [← List.filter_filter]
    exact List.length_filter_le _ _
  refine ⟨?_, ?_, ?_, ?_, ?_, ?_, ?_, ?_, ?_⟩ <;>
    simp [MemDB.get_stats, MemDB.get_user_stats, hdl, husers] <;> omega

/-! ## Theorems: scraping client (C6) -/

/-- C6: `download_video` always returns a result record — success with
a file path and no error, or failure with an error string and no path —
and the ordinary failure modes (non-200 page, missing token, non-200
API response, no download link, non-200 video download) are reported
through the failure variant rather than raised. -/
theorem c6_download_video_variants (url : String) (env : DownloadEnv) :
    (((download_video url env).success = true ∧
        (∃ p, (download_video url env).download_path = some p) ∧
        (download_video url env).error = none) ∨
      ((download_video url env).success = false ∧
        (download_video url env).download_path = none ∧
        ∃ e, (download_video url env).error = some e)) ∧
    (env.pageStatus ≠ 200 →
      (download_video url env).success = false ∧
      (download_video url env).error =
        some ("Failed to load page: " ++ toString env.pageStatus)) ∧
    (env.pageStatus = 200 → env.pageToken = none →
      (download_video url env).success = false ∧
      (download_video url env).error = some "Could not find 'tt' token") ∧
    (env.pageStatus = 200 → env.pageToken ≠ none → env.apiStatus ≠ 200 →
      (download_video url env).success = false ∧
      (download_video url env).error =
        some ("API request failed: " ++ toString env.apiStatus)) ∧
    (env.pageStatus = 200 → env.pageToken ≠ none → env.apiStatus = 200 →
      selectLoop none env.pageLinks = none →
      (download_video url env).success = false ∧
      (download_video url env).error = some "No download link found") ∧
    (env.pageStatus = 200 → env.pageToken ≠ none → env.apiStatus = 200 →
      selectLoop none env.pageLinks ≠ none → env.videoStatus ≠ 200 →
      (download_video url env).success = false ∧
      (download_video url env).error =
        some ("Download failed: " ++ toString env.videoStatus)) := by
  by_cases hp : env.pageStatus = 200
  · rcases htk : env.pageToken with _ | tok
    · simp [download_video, getToken, hp, htk]
    · by_cases ha : env.apiStatus = 200
      · rcases hsel : selectLoop none env.pageLinks with _ | u
        · simp [download_video, getToken, fetchDownloadLinks, hp, htk, ha, hsel]
        · by_cases hv : env.videoStatus = 200
          · simp [download_video, getToken, fetchDownloadLinks, hp, htk, ha, hsel, hv]
          · simp [download_video, getToken, fetchDownloadLinks, hp, htk, ha, hsel, hv]
      · simp [download_video, getToken, fetchDownloadLinks, hp, htk, ha]
  · simp [download_video, getToken, hp]

/-- C6 witness: a 500 page load yields the failure variant. -/
theorem c6_witness :
    (download_video "u"
      { pageStatus := 500, pageToken := none, apiStatus := 200, pageLinks := [],
        videoStatus := 200, isoNow := "T", nowStr := "N", fallbackTs := "F" }).success
      = false ∧
    (download_video "u"
      { pageStatus := 500, pageToken := none, apiStatus := 200, pageLinks := [],
        videoStatus := 200, isoNow := "T", nowStr := "N", fallbackTs := "F" }).error =
      some ("Failed to load page: " ++ toString (500 : ℕ)) := by
  exact (c6_download_video_variants "u"
    { pageStatus := 500, pageToken := none, apiStatus := 200, pageLinks := [],
      videoStatus := 200, isoNow := "T", nowStr := "N", fallbackTs := "F" }).2.1
    (by decide)

/-! ## Theorems: worker loop (C1, C4, C5, C7, C9) -/

/-- A needle matches at the start of itself plus anything. -/
theorem matchesAt_append_self (n post : List Char) : matchesAt n (n ++ post) = true := by
  induction n with
  | nil => rfl
  | cons c cs ih => simp [matchesAt, ih]

/-- The empty needle occurs in every haystack. -/
theorem hasSub_nil_needle (l : List Char) : hasSub [] l = true := by
  cases l <;> simp [hasSub, matchesAt]

/-- A needle occurs in any haystack that embeds it contiguously. -/
theorem hasSub_mid (pre n post : List Char) : hasSub n (pre ++ (n ++ post)) = true := by
  induction pre with
  | nil =>
    cases n with
    | nil => simp [hasSub_nil_needle]
    | cons c cs =>
      have h := matchesAt_append_self (c :: cs) post
      simp only [List.cons_append] at h ⊢
      simp [hasSub, h]
  | cons p ps ih => simp [hasSub, ih]

/-- `x` occurs in `a ++ x ++ b`. -/
theorem strContains_mid (a x b : String) : strContains (a ++ x ++ b) x = true := by
  unfold strContains
  have h : (a ++ x ++ b).toList = a.toList ++ (x.toList ++ b.toList) := by
    simp [String.toList, String.data_append]
  rw [h]
  exact hasSub_mid _ _ _

/-- Each worker iteration invokes `fetch` exactly once, for its own job. -/
theorem fetchIdxs_processJob (i : ℕ) (t : QTask) (env : JobEnv) :
    fetchIdxs (processJob i t env).1 = [i] := by
  unfold processJob tryBody exceptHandler
  rcases hs : (download_video t.url env.denv).success <;>
    rcases h2 : env.statsRaises <;> rcases h3 : env.deliveryRaises <;>
      simp [hs, h2, h3, fetchIdxs]

/-- Each worker iteration dequeues exactly its own job. -/
theorem dequeueIdxs_processJob (i : ℕ) (t : QTask) (env : JobEnv) :
    dequeueIdxs (processJob i t env).1 = [i] := by
  unfold processJob tryBody exceptHandler
  rcases hs : (download_video t.url env.denv).success <;>
    rcases h2 : env.statsRaises <;> rcases h3 : env.deliveryRaises <;>
      simp [hs, h2, h3, dequeueIdxs]

/-- Each worker iteration calls `task_done` exactly once, for its own job. -/
theorem resolveIdxs_processJob (i : ℕ) (t : QTask) (env : JobEnv) :
    resolveIdxs (processJob i t env).1 = [i] := by
  unfold processJob tryBody exceptHandler
  rcases hs : (download_video t.url env.denv).success <;>
    rcases h2 : env.statsRaises <;> rcases h3 : env.deliveryRaises <;>
      simp [hs, h2, h3, resolveIdxs]

/-- One iteration is a balanced dequeue/resolve block for the checker. -/
theorem seqOk_processJob (i : ℕ) (t : QTask) (env : JobEnv) (rest : List Ev) :
    seqOk false ((processJob i t env).1 ++ rest) = seqOk false rest := by
  unfold processJob tryBody exceptHandler
  rcases hs : (download_video t.url env.denv).success <;>
    rcases h2 : env.statsRaises <;> rcases h3 : env.deliveryRaises <;>
      simp [hs, h2, h3, seqOk]

/-- One iteration is a balanced fetch block for the checker. -/
theorem fetchSeqOk_processJob (i : ℕ) (t : QTask) (env : JobEnv) (rest : List Ev) :
    fetchSeqOk false ((processJob i t env).1 ++ rest) = fetchSeqOk false rest := by
  unfold processJob tryBody exceptHandler
  rcases hs : (download_video t.url env.denv).success <;>
    rcases h2 : env.statsRaises <;> rcases h3 : env.deliveryRaises <;>
      simp [hs, h2, h3, fetchSeqOk]
/-- Unfolding one loop iteration of the worker trace. -/
theorem runWorkerAux_job_trace (i : ℕ) (t : QTask) (env : JobEnv) (rest : List WInput) :
    (runWorkerAux i (WInput.job t env :: rest)).1 =
      (processJob i t env).1 ++
        ((if (processJob i t env).2 then [Ev.outerCaught i] else []) ++
          (runWorkerAux (i + 1) rest).1) := by
  rcases hesc : (processJob i t env).2 <;> simp [runWorkerAux, hesc]

/-- Exit and residual queue do not depend on the current iteration. -/
theorem runWorkerAux_job_rest (i : ℕ) (t : QTask) (env : JobEnv) (rest : List WInput) :
    (runWorkerAux i (WInput.job t env :: rest)).2 = (runWorkerAux (i + 1) rest).2 := by
  simp [runWorkerAux]

/-- `fetchIdxs` distributes over concatenation. -/
theorem fetchIdxs_append (a b : List Ev) :
    fetchIdxs (a ++ b) = fetchIdxs a ++ fetchIdxs b := List.filterMap_append a b _

/-- `dequeueIdxs` distributes over concatenation. -/
theorem dequeueIdxs_append (a b : List Ev) :
    dequeueIdxs (a ++ b) = dequeueIdxs a ++ dequeueIdxs b := List.filterMap_append a b _

/-- `resolveIdxs` distributes over concatenation. -/
theorem resolveIdxs_append (a b : List Ev) :
    resolveIdxs (a ++ b) = resolveIdxs a ++ resolveIdxs b := List.filterMap_append a b _

/-- The outer-handler log event contains no fetch. -/
theorem fetchIdxs_outerIf (c : Bool) (i : ℕ) :
    fetchIdxs (if c then [Ev.outerCaught i] else []) = [] := by
  rcases c <;> simp [fetchIdxs]

/-- The outer-handler log event contains no dequeue. -/
theorem dequeueIdxs_outerIf (c : Bool) (i : ℕ) :
    dequeueIdxs (if c then [Ev.outerCaught i] else []) = [] := by
  rcases c <;> simp [dequeueIdxs]

/-- The outer-handler log event contains no resolution. -/
theorem resolveIdxs_outerIf (c : Bool) (i : ℕ) :
    resolveIdxs (if c then [Ev.outerCaught i] else []) = [] := by
  rcases c <;> simp [resolveIdxs]

/-- Fetches across a run happen once per job, in queue order. -/
theorem fetchIdxs_runJobs (js : List (QTask × JobEnv)) (i : ℕ) :
    fetchIdxs (runWorkerAux i (js.map fun p => WInput.job p.1 p.2)).1 =
      List.range' i js.length := by
  induction js generalizing i with
  | nil => simp [runWorkerAux, fetchIdxs]
  | cons p r ih =>
    rw [List.map_cons, runWorkerAux_job_trace, fetchIdxs_append, fetchIdxs_append,
      fetchIdxs_processJob, fetchIdxs_outerIf, ih]
    simp [List.range'_succ]

/-- Dequeues across a run happen once per job, in queue order. -/
theorem dequeueIdxs_runJobs (js : List (QTask × JobEnv)) (i : ℕ) :
    dequeueIdxs (runWorkerAux i (js.map fun p => WInput.job p.1 p.2)).1 =
      List.range' i js.length := by
  induction js generalizing i with
  | nil => simp [runWorkerAux, dequeueIdxs]
  | cons p r ih =>
    rw [List.map_cons, runWorkerAux_job_trace, dequeueIdxs_append, dequeueIdxs_append,
      dequeueIdxs_processJob, dequeueIdxs_outerIf, ih]
    simp [List.range'_succ]

/-- Resolutions across a run happen once per job, in queue order. -/
theorem resolveIdxs_runJobs (js : List (QTask × JobEnv)) (i : ℕ) :
    resolveIdxs (runWorkerAux i (js.map fun p => WInput.job p.1 p.2)).1 =
      List.range' i js.length := by
  induction js generalizing i with
  | nil => simp [runWorkerAux, resolveIdxs]
  | cons p r ih =>
    rw [List.map_cons, runWorkerAux_job_trace, resolveIdxs_append, resolveIdxs_append,
      resolveIdxs_processJob, resolveIdxs_outerIf, ih]
    simp [List.range'_succ]

/-- Across a whole run, at most one job is ever in flight. -/
theorem seqOk_runJobs (js : List (QTask × JobEnv)) (i : ℕ) :
    seqOk false (runWorkerAux i (js.map fun p => WInput.job p.1 p.2)).1 = true := by
  induction js generalizing i with
  | nil => simp [runWorkerAux, seqOk]
  | cons p r ih =>
    rw [List.map_cons, runWorkerAux_job_trace, seqOk_processJob]
    rcases hesc : (processJob i p.1 p.2).2 <;> simp [hesc, seqOk, ih]

/-- Across a whole run, fetch invocations never overlap. -/
theorem fetchSeqOk_runJobs (js : List (QTask × JobEnv)) (i : ℕ) :
    fetchSeqOk false (runWorkerAux i (js.map fun p => WInput.job p.1 p.2)).1 = true := by
  induction js generalizing i with
  | nil => simp [runWorkerAux, fetchSeqOk]
  | cons p r ih =>
    rw [List.map_cons, runWorkerAux_job_trace, fetchSeqOk_processJob]
    rcases hesc : (processJob i p.1 p.2).2 <;> simp [hesc, fetchSeqOk, ih]

/-- C1: over any queue of jobs with any collaborator behaviour, the worker
dequeues, fetches and resolves each job exactly once, in strict FIFO
order (`List.range`), every dequeued job is fully resolved before the
next dequeue (at most one in flight), and no two fetch invocations
overlap. -/
theorem c1_worker_fifo (js : List (QTask × JobEnv)) :
    dequeueIdxs (runWorkerJobs js) = List.range js.length ∧
    fetchIdxs (runWorkerJobs js) = List.range js.length ∧
    resolveIdxs (runWorkerJobs js) = List.range js.length ∧
    seqOk false (runWorkerJobs js) = true ∧
    fetchSeqOk false (runWorkerJobs js) = true := by
  unfold runWorkerJobs
  rw [List.range_eq_range']
  exact ⟨dequeueIdxs_runJobs js 0, fetchIdxs_runJobs js 0, resolveIdxs_runJobs js 0,
    seqOk_runJobs js 0, fetchSeqOk_runJobs js 0⟩

/-- The loop's exit observation: it stops exactly on cancellation. -/
theorem runWorkerAux_exit (inputs : List WInput) (i : ℕ) :
    ((runWorkerAux i inputs).2.1 = WExit.running ∨
      (runWorkerAux i inputs).2.1 = WExit.stopped) ∧
    ((runWorkerAux i inputs).2.1 = WExit.stopped ↔ WInput.cancel ∈ inputs) := by
  induction inputs generalizing i with
  | nil => simp [runWorkerAux]
  | cons c r ih =>
    cases c with
    | cancel => simp [runWorkerAux]
    | job t env => simpa [runWorkerAux] using ih (i + 1)

/-- C9: the worker loop never terminates because of a job: whatever the
jobs' fetch/delivery/statistics behaviour, the exit observation is only
"still waiting" or "stopped on the cancellation signal", it is "stopped"
exactly when a cancellation was delivered, and cancelling on an empty
queue stops the loop cleanly with the queue still inspectable
(`currentDepth` 0). -/
theorem c9_worker_termination (inputs : List WInput) :
    ((runWorker inputs).2.1 = WExit.running ∨ (runWorker inputs).2.1 = WExit.stopped) ∧
    ((runWorker inputs).2.1 = WExit.stopped ↔ WInput.cancel ∈ inputs) ∧
    runWorker [WInput.cancel] = ([], WExit.stopped, []) ∧
    currentDepth (runWorker [WInput.cancel]).2.2 = 0 := by
  obtain ⟨h1, h2⟩ := runWorkerAux_exit inputs 0
  exact ⟨h1, h2, by decide, by decide⟩

/-- C9 witness: cancelling the idle worker stops it. -/
theorem c9_witness :
    (runWorker [WInput.cancel]).2.1 = WExit.stopped := by
  exact (c9_worker_termination [WInput.cancel]).2.1.mpr (by decide)
/-- C4 (amended): the worker deletes the fetched artifact exactly when
the fetch succeeded *and* neither the success-statistics write nor the
delivery raised; in particular, when delivery raises after a successful
fetch, `os.remove` is never reached and the artifact file remains on
disk. -/
theorem c4_cleanup (i : ℕ) (t : QTask) (env : JobEnv) :
    removedPaths (processJob i t env).1 =
      (if (download_video t.url env.denv).success && !env.statsRaises && !env.deliveryRaises
       then [(download_video t.url env.denv).download_path.getD ""] else []) := by
  unfold processJob tryBody exceptHandler
  rcases hs : (download_video t.url env.denv).success <;>
    rcases h2 : env.statsRaises <;> rcases h3 : env.deliveryRaises <;>
      simp [hs, h2, h3, removedPaths]

/-- C4 counterexample: successful fetch, delivery raises — the job
resolves but no `os.remove` is performed, so the artifact referenced by
the outcome is still on disk. -/
theorem c4_cex :
    (download_video "https://www.tiktok.com/@a/video/111"
      { pageStatus := 200, pageToken := some "tok", apiStatus := 200,
        pageLinks := [⟨"//tikcdn.io/v.mp4", "Without watermark"⟩],
        videoStatus := 200, isoNow := "T", nowStr := "20260101_000000",
        fallbackTs := "F" }).success = true ∧
    removedPaths (processJob 0
      { user_id := 42, url := "https://www.tiktok.com/@a/video/111", queue_position := 1 }
      { denv :=
          { pageStatus := 200, pageToken := some "tok", apiStatus := 200,
            pageLinks := [⟨"//tikcdn.io/v.mp4", "Without watermark"⟩],
            videoStatus := 200, isoNow := "T", nowStr := "20260101_000000",
            fallbackTs := "F" },
        deliveryRaises := true, statsRaises := false }).1 = [] := by decide

/-- C5 (amended): an uncaught exception during Notifying (after a
successful fetch) leaves the job fully resolved — dequeued once,
`task_done` once, nothing requeued, no exception escaping — but its
statistics are *not* identical to a fetch failure: the success was
already recorded before delivery, so the store receives one successful
and one failed attempt for the job. -/
theorem c5_notify_failure_double_record (i : ℕ) (t : QTask) (env : JobEnv)
    (hs : (download_video t.url env.denv).success = true)
    (hd : env.deliveryRaises = true) (hst : env.statsRaises = false) :
    recordsOf (processJob i t env).1 =
      [(t.user_id, t.url, true), (t.user_id, t.url, false)] ∧
    dequeueIdxs (processJob i t env).1 = [i] ∧
    resolveIdxs (processJob i t env).1 = [i] ∧
    (processJob i t env).2 = false := by
  unfold processJob tryBody exceptHandler
  simp [hs, hd, hst, recordsOf, dequeueIdxs, resolveIdxs]

/-- C5 counterexample: with delivery raising after a successful fetch,
the statistics calls are `[success, failure]`, not the single failed
attempt the claim states. -/
theorem c5_cex :
    recordsOf (processJob 0
      { user_id := 42, url := "https://www.tiktok.com/@a/video/111", queue_position := 1 }
      { denv :=
          { pageStatus := 200, pageToken := some "tok", apiStatus := 200,
            pageLinks := [⟨"//tikcdn.io/v.mp4", "Without watermark"⟩],
            videoStatus := 200, isoNow := "T", nowStr := "20260101_000000",
            fallbackTs := "F" },
        deliveryRaises := true, statsRaises := false }).1 =
      [(42, "https://www.tiktok.com/@a/video/111", true),
       (42, "https://www.tiktok.com/@a/video/111", false)] ∧
    recordsOf (processJob 0
      { user_id := 42, url := "https://www.tiktok.com/@a/video/111", queue_position := 1 }
      { denv :=
          { pageStatus := 200, pageToken := some "tok", apiStatus := 200,
            pageLinks := [⟨"//tikcdn.io/v.mp4", "Without watermark"⟩],
            videoStatus := 200, isoNow := "T", nowStr := "20260101_000000",
            fallbackTs := "F" },
        deliveryRaises := true, statsRaises := false }).1 ≠
      [(42, "https://www.tiktok.com/@a/video/111", false)] := by decide

/-- C5 witness: concrete delivery-failure job. -/
theorem c5_witness :
    recordsOf (processJob 0
      { user_id := 7, url := "https://www.tiktok.com/@b/video/999", queue_position := 1 }
      { denv :=
          { pageStatus := 200, pageToken := some "tok", apiStatus := 200,
            pageLinks := [⟨"//tikcdn.io/w.mp4", "without watermark"⟩],
            videoStatus := 200, isoNow := "T", nowStr := "20260101_000001",
            fallbackTs := "F" },
        deliveryRaises := true, statsRaises := false }).1 =
      [(7, "https://www.tiktok.com/@b/video/999", true),
       (7, "https://www.tiktok.com/@b/video/999", false)] ∧
    dequeueIdxs (processJob 0
      { user_id := 7, url := "https://www.tiktok.com/@b/video/999", queue_position := 1 }
      { denv :=
          { pageStatus := 200, pageToken := some "tok", apiStatus := 200,
            pageLinks := [⟨"//tikcdn.io/w.mp4", "without watermark"⟩],
            videoStatus := 200, isoNow := "T", nowStr := "20260101_000001",
            fallbackTs := "F" },
        deliveryRaises := true, statsRaises := false }).1 = [0] ∧
    resolveIdxs (processJob 0
      { user_id := 7, url := "https://www.tiktok.com/@b/video/999", queue_position := 1 }
      { denv :=
          { pageStatus := 200, pageToken := some "tok", apiStatus := 200,
            pageLinks := [⟨"//tikcdn.io/w.mp4", "without watermark"⟩],
            videoStatus := 200, isoNow := "T", nowStr := "20260101_000001",
            fallbackTs := "F" },
        deliveryRaises := true, statsRaises := false }).1 = [0] ∧
    (processJob 0
      { user_id := 7, url := "https://www.tiktok.com/@b/video/999", queue_position := 1 }
      { denv :=
          { pageStatus := 200, pageToken := some "tok", apiStatus := 200,
            pageLinks := [⟨"//tikcdn.io/w.mp4", "without watermark"⟩],
            videoStatus := 200, isoNow := "T", nowStr := "20260101_000001",
            fallbackTs := "F" },
        deliveryRaises := true, statsRaises := false }).2 = false := by
  exact c5_notify_failure_double_record 0
    { user_id := 7, url := "https://www.tiktok.com/@b/video/999", queue_position := 1 }
    { denv :=
        { pageStatus := 200, pageToken := some "tok", apiStatus := 200,
          pageLinks := [⟨"//tikcdn.io/w.mp4", "without watermark"⟩],
          videoStatus := 200, isoNow := "T", nowStr := "20260101_000001",
          fallbackTs := "F" },
      deliveryRaises := true, statsRaises := false }
    (by decide) (by decide) (by decide)

/-- C7: when fetch returns the failure variant, the worker records
exactly one failed attempt `(submitterId, url, false)`, edits the status
message to the failure text which contains the error detail, and
processes the job exactly once (one dequeue, one fetch, one resolution —
no retry). -/
theorem c7_fetch_failure (i : ℕ) (t : QTask) (env : JobEnv)
    (hf : (download_video t.url env.denv).success = false)
    (hst : env.statsRaises = false) :
    recordsOf (processJob i t env).1 = [(t.user_id, t.url, false)] ∧
    editsOf (processJob i t env).1 =
      ["⏳ Downloading your video...",
       failMessage (download_video t.url env.denv).error] ∧
    strContains (failMessage (download_video t.url env.denv).error)
      ((download_video t.url env.denv).error.getD "Unknown error") = true ∧
    dequeueIdxs (processJob i t env).1 = [i] ∧
    fetchIdxs (processJob i t env).1 = [i] ∧
    resolveIdxs (processJob i t env).1 = [i] := by
  refine ⟨?_, ?_, ?_, ?_, ?_, ?_⟩ <;>
    first
    | (unfold failMessage; exact strContains_mid _ _ _)
    | (unfold processJob tryBody exceptHandler
       simp [hf, hst, recordsOf, editsOf, dequeueIdxs, fetchIdxs, resolveIdxs])

/-- C7 witness: a job whose fetch finds no download link yields one
failed record and a failure message containing "No download link
found". -/
theorem c7_witness :
    recordsOf (processJob 0
      { user_id := 42, url := "https://www.tiktok.com/@a/video/111", queue_position := 1 }
      { denv :=
          { pageStatus := 200, pageToken := some "tok", apiStatus := 200,
            pageLinks := [], videoStatus := 200, isoNow := "T", nowStr := "N",
            fallbackTs := "F" },
        deliveryRaises := false, statsRaises := false }).1 =
      [(42, "https://www.tiktok.com/@a/video/111", false)] ∧
    editsOf (processJob 0
      { user_id := 42, url := "https://www.tiktok.com/@a/video/111", queue_position := 1 }
      { denv :=
          { pageStatus := 200, pageToken := some "tok", apiStatus := 200,
            pageLinks := [], videoStatus := 200, isoNow := "T", nowStr := "N",
            fallbackTs := "F" },
        deliveryRaises := false, statsRaises := false }).1 =
      ["⏳ Downloading your video...",
       failMessage (download_video "https://www.tiktok.com/@a/video/111"
        { pageStatus := 200, pageToken := some "tok", apiStatus := 200,
          pageLinks := [], videoStatus := 200, isoNow := "T", nowStr := "N",
          fallbackTs := "F" }).error] ∧
    strContains (failMessage (download_video "https://www.tiktok.com/@a/video/111"
        { pageStatus := 200, pageToken := some "tok", apiStatus := 200,
          pageLinks := [], videoStatus := 200, isoNow := "T", nowStr := "N",
          fallbackTs := "F" }).error) "No download link found" = true := by
  have h := c7_fetch_failure 0
    { user_id := 42, url := "https://www.tiktok.com/@a/video/111", queue_position := 1 }
    { denv :=
        { pageStatus := 200, pageToken := some "tok", apiStatus := 200,
          pageLinks := [], videoStatus := 200, isoNow := "T", nowStr := "N",
          fallbackTs := "F" },
      deliveryRaises := false, statsRaises := false }
    (by decide) (by decide)
  refine ⟨h.1, h.2.1, ?_⟩
  have he : (download_video "https://www.tiktok.com/@a/video/111"
      { pageStatus := 200, pageToken := some "tok", apiStatus := 200,
        pageLinks := [], videoStatus := 200, isoNow := "T", nowStr := "N",
        fallbackTs := "F" }).error = some "No download link found" := by decide
  have h3 := h.2.2.1
  rw [he] at h3 ⊢
  simpa using h3
